import Mathlib

/-!
Shallow embedding of the `tensor_types` crate: typed, shape-checked and
kind-checked wrappers around `tch::Tensor`.

The repository generates wrapper types through two macro variants:

* `tensor_types_proc/src/lib.rs` (`tensor_type!` proc macro): "global mode".
  Each generated type owns a module of statics `INIT : Once`,
  `DIMS : Mutex<[i64; N]>` (initialised to zeros) and `KIND : Mutex<tch::Kind>`
  (initialised to the declared kind), with operations `set`, `new`,
  `get_dims`, `get_kind`, `is_initialized`, `apply`, `clone`, `into_inner`.
  Embedded below in namespace `Proc`, with the statics gathered into an
  explicit `ModuleState` record threaded through the operations.

* `src/tensor_types.rs` (`tensor_type!` macro_rules): "explicit-params mode".
  No persisted state; `new`, `apply_fn` and `clone` receive a params record
  and recompute the expected shape as `vec![params.$field.into(), ...]`.
  Embedded below in namespace `Lib`, with the declared field list modelled as
  a list of accessors `P → Int` over an abstract params type `P`.

The external `tch` library is modelled by the only data the core reads from
it: the shape (`size()`, an ordered list of `i64`) and the element kind.
-/

namespace TensorTypes

/-- `tch::Kind`: the finite element-kind tag of the external array library
(the subset of variants exercised by the repository). -/
inductive Kind where
  | Float
  | Double
  | Int
  | Int64
  deriving DecidableEq, Repr

/-- The external `tch::Tensor` collaborator, reduced to the observations the
core makes of it: `size()` (the shape) and `kind()`. -/
structure Tensor where
  shape : List Int
  kind : Kind
  deriving DecidableEq, Repr

/-- `tch::Tensor::shallow_clone`: a second handle aliasing the same storage;
its observable shape and kind are those of the original. -/
def Tensor.shallow_clone (t : Tensor) : Tensor := t

namespace Proc

/-- The per-type error enum `#error_type_name` generated by the proc macro
(`tensor_types_proc/src/lib.rs`, lines 267-285): four variants, each carrying
the declaring wrapper type name; the mismatch variants also carry the
expected and found values that were compared. -/
inductive TensorTypeError where
  | ShapeMismatch (type_name : String) (expected found : List Int)
  | KindMismatch (type_name : String) (expected found : Kind)
  | Uninitialized (type_name : String)
  | AlreadyInitialized (type_name : String)
  deriving DecidableEq, Repr

/-- The statics of the generated module `#module_name`
(`tensor_types_proc/src/lib.rs`, lines 91-97): `INIT : Once` (modelled by its
completion flag), `DIMS : Mutex<[i64; N]>` and `KIND : Mutex<tch::Kind>`. -/
structure ModuleState where
  INIT : Bool
  DIMS : List Int
  KIND : Kind
  deriving DecidableEq, Repr

/-- The statics as initialised at declaration time for a wrapper type of
arity `N` with declared kind `K`: `INIT` not completed, `DIMS = [0; N]`,
`KIND = K`. -/
def declState (N : Nat) (K : Kind) : ModuleState :=
  { INIT := false, DIMS := List.replicate N (0 : Int), KIND := K }

/-- `is_initialized()`: `INIT.is_completed()`. -/
def is_initialized (s : ModuleState) : Bool := s.INIT

/-- `get_dims()`: `Some(DIMS.lock().to_vec())` when initialised, else `None`. -/
def get_dims (s : ModuleState) : Option (List Int) :=
  if is_initialized s then some s.DIMS else none

/-- `get_kind()`: `Some(*KIND.lock())` when initialised, else `None`. -/
def get_kind (s : ModuleState) : Option Kind :=
  if is_initialized s then some s.KIND else none

/-- `set(x0, ..)` (`tensor_types_proc/src/lib.rs`, lines 167-181), run to
completion in isolation: if `INIT.is_completed()` fail with
`AlreadyInitialized`; otherwise `INIT.call_once` stores the values into
`DIMS` and completes `INIT`, and `Ok(())` is returned. The declared arity
fixes the number of arguments statically; here they are a list. -/
def set (type_name : String) (vals : List Int) (s : ModuleState) :
    Except TensorTypeError Unit × ModuleState :=
  if s.INIT then
    (Except.error (.AlreadyInitialized type_name), s)
  else
    (Except.ok (), { s with INIT := true, DIMS := vals })

/-- The generated wrapper struct `pub struct #name { tensor: tch::Tensor }`. -/
structure TensorType where
  tensor : Tensor
  deriving DecidableEq, Repr

/-- `new(tensor)` (`tensor_types_proc/src/lib.rs`, lines 201-229): fail with
`Uninitialized` unless `INIT.is_completed()`; then compare the kind
(`*KIND.lock() != tensor.kind()` gives `KindMismatch`); then compare the size
(`tensor.size() != DIMS.to_vec()` gives `ShapeMismatch`); otherwise wrap. -/
def new (type_name : String) (s : ModuleState) (tensor : Tensor) :
    Except TensorTypeError TensorType :=
  if !s.INIT then
    Except.error (.Uninitialized type_name)
  else if s.KIND ≠ tensor.kind then
    Except.error (.KindMismatch type_name s.KIND tensor.kind)
  else if tensor.shape ≠ s.DIMS then
    Except.error (.ShapeMismatch type_name s.DIMS tensor.shape)
  else
    Except.ok ⟨tensor⟩

/-- `clone(&self)` (`tensor_types_proc/src/lib.rs`, lines 252-254): returns
`Self { tensor: self.tensor.shallow_clone() }` directly, with no validation
and no fallible result. -/
def TensorType.clone (a : TensorType) : TensorType :=
  ⟨a.tensor.shallow_clone⟩

/-- `apply(&self, f)` (`tensor_types_proc/src/lib.rs`, lines 256-261):
`Self::new(f(&self.tensor))`. -/
def apply (type_name : String) (s : ModuleState) (a : TensorType)
    (f : Tensor → Tensor) : Except TensorTypeError TensorType :=
  new type_name s (f a.tensor)

/-- `into_inner(self)`: moves the wrapped tensor out. -/
def into_inner (a : TensorType) : Tensor := a.tensor

end Proc

namespace Lib

/-- `TensorTypeError` of `src/src/tensor_types.rs` (lines 112-128): the error
enum of the explicit-params variant has exactly two variants, `ShapeMismatch`
and `KindMismatch`, each carrying the type name and the compared values. -/
inductive TensorTypeError where
  | ShapeMismatch (type_name : String) (expected found : List Int)
  | KindMismatch (type_name : String) (expected found : Kind)
  deriving DecidableEq, Repr

/-- The generated wrapper struct `pub struct $name { pub tensor: tch::Tensor }`. -/
structure TensorType where
  tensor : Tensor
  deriving DecidableEq, Repr

/-- The expected shape computed by the macro body:
`vec![$(params.$field.into()),*]`, reading the declared fields of the params
record in declared order. A declaration of arity `N` over params type `P` is
modelled by its list of `N` field accessors. -/
def expected_size {P : Type} (fields : List (P → Int)) (p : P) : List Int :=
  fields.map (fun g => g p)

/-- `new(tensor, &params)` (`src/src/tensor_types.rs`, lines 37-57): compute
`expected_size` from the params record; compare the size first
(`tensor_size != expected_size` gives `ShapeMismatch`), then the kind
(`tensor.kind() != $kind` gives `KindMismatch`); otherwise wrap. -/
def new {P : Type} (type_name : String) (fields : List (P → Int))
    (kind : Kind) (tensor : Tensor) (p : P) :
    Except TensorTypeError TensorType :=
  if tensor.shape ≠ expected_size fields p then
    Except.error (.ShapeMismatch type_name (expected_size fields p) tensor.shape)
  else if tensor.kind ≠ kind then
    Except.error (.KindMismatch type_name kind tensor.kind)
  else
    Except.ok ⟨tensor⟩

/-- `apply_fn(&self, tfn, &params)` (`src/src/tensor_types.rs`, lines 71-77):
`Self::new(tfn(&self.tensor), params)`. -/
def apply_fn {P : Type} (type_name : String) (fields : List (P → Int))
    (kind : Kind) (a : TensorType) (tfn : Tensor → Tensor) (p : P) :
    Except TensorTypeError TensorType :=
  new type_name fields kind (tfn a.tensor) p

/-- `clone(&self, &params)` (`src/src/tensor_types.rs`, lines 83-85):
`Self::new(self.tensor.shallow_clone(), params)`. -/
def TensorType.clone {P : Type} (type_name : String) (fields : List (P → Int))
    (kind : Kind) (a : TensorType) (p : P) :
    Except TensorTypeError TensorType :=
  new type_name fields kind a.tensor.shallow_clone p

/-- `into_inner(self)`: moves the wrapped tensor out. -/
def into_inner (a : TensorType) : Tensor := a.tensor

end Lib

namespace Proc

/-- Program counter of one thread executing the body of `set`
(`tensor_types_proc/src/lib.rs`, lines 167-181). The body has two shared
interactions: the `INIT.is_completed()` guard, and the atomic
`INIT.call_once` (after which `Ok(())` is returned unconditionally). -/
inductive ThreadPC where
  | checkInit
  | callOnce
  | finished
  deriving DecidableEq, Repr

/-- One thread racing a `set(vals)` call: its program counter, the values it
is trying to store, and its eventual return value. -/
structure Thread where
  pc : ThreadPC
  vals : List Int
  result : Option (Except TensorTypeError Unit)
  deriving Repr

/-- One shared-memory step of a thread running `set`:
at `checkInit`, read `INIT.is_completed()`; if completed, return
`AlreadyInitialized`, else fall through to the `call_once`.
At `callOnce`, atomically run the closure (store `vals` into `DIMS` and
complete `INIT`) when `INIT` is not yet completed, or skip it when some other
thread completed `INIT` first; either way the call then returns `Ok(())`. -/
def stepThread (type_name : String) (s : ModuleState) (t : Thread) :
    ModuleState × Thread :=
  match t.pc with
  | .checkInit =>
      if s.INIT then
        (s, { t with pc := .finished,
                     result := some (Except.error (.AlreadyInitialized type_name)) })
      else
        (s, { t with pc := .callOnce })
  | .callOnce =>
      if s.INIT then
        (s, { t with pc := .finished, result := some (Except.ok ()) })
      else
        ({ s with INIT := true, DIMS := t.vals },
         { t with pc := .finished, result := some (Except.ok ()) })
  | .finished => (s, t)

/-- Two threads concurrently calling `set` on the same wrapper type's
statics. -/
structure RaceState where
  shared : ModuleState
  t1 : Thread
  t2 : Thread
  deriving Repr

/-- Thread identifiers for the two racing threads. -/
inductive Tid where
  | one
  | two
  deriving DecidableEq, Repr

/-- Run one step of the scheduled thread. -/
def stepRace (type_name : String) (r : RaceState) (i : Tid) : RaceState :=
  match i with
  | .one =>
      let ms := stepThread type_name r.shared r.t1
      { r with shared := ms.1, t1 := ms.2 }
  | .two =>
      let ms := stepThread type_name r.shared r.t2
      { r with shared := ms.1, t2 := ms.2 }

/-- Run an interleaving (a schedule of thread identifiers). -/
def runSchedule (type_name : String) (r : RaceState) : List Tid → RaceState
  | [] => r
  | i :: rest => runSchedule type_name (stepRace type_name r i) rest

end Proc

/-- A type generated by `parameter_type!($type_name, i64)`
(`src/src/parameter_types.rs`): a single-field newtype over `i64`. -/
structure ParameterValue where
  val : Int
  deriving DecidableEq, Repr

/-- `impl From<i64> for $type_name` (`src/src/parameter_types.rs`,
lines 34-39): wrap the value. -/
def ParameterValue.from_i64 (v : Int) : ParameterValue := ⟨v⟩

/-- `impl From<$type_name> for i64` (`src/src/parameter_types.rs`,
lines 41-46): unwrap the value. -/
def ParameterValue.into_i64 (p : ParameterValue) : Int := p.val

/-- `impl Deref for $type_name` (`src/src/parameter_types.rs`, lines 50-57):
dereferencing yields the inner value. -/
def ParameterValue.deref (p : ParameterValue) : Int := p.val

/-- C1: for every wrapper-type declaration of arity N with element kind K and
every tuple of N dimension values, a successful `set(values)` followed by
`new(array)` where the array's shape equals the values (in order) and the
array's kind equals K returns `Ok` wrapping that array. -/
theorem C1_set_then_matching_new_ok (N : Nat) (K : Kind) (tn : String)
    (vals : List Int) (t : Tensor) (_hlen : vals.length = N)
    (hshape : t.shape = vals) (hkind : t.kind = K) :
    (Proc.set tn vals (Proc.declState N K)).1 = Except.ok () ∧
    Proc.new tn (Proc.set tn vals (Proc.declState N K)).2 t =
      Except.ok ⟨t⟩ := by
  constructor
  · rfl
  · simp [Proc.set, Proc.declState, Proc.new, hshape, hkind]

/-- Witness for C1 at the concrete declaration of arity 2, kind Float,
values (2, 3) and a tensor of shape [2, 3] and kind Float. -/
theorem C1_witness :
    (Proc.set "T" [2, 3] (Proc.declState 2 Kind.Float)).1 = Except.ok () ∧
    Proc.new "T" (Proc.set "T" [2, 3] (Proc.declState 2 Kind.Float)).2
      ⟨[2, 3], Kind.Float⟩ = Except.ok ⟨⟨[2, 3], Kind.Float⟩⟩ :=
  C1_set_then_matching_new_ok 2 Kind.Float "T" [2, 3] ⟨[2, 3], Kind.Float⟩
    rfl rfl rfl

/-- C2 counterexample: in the global (proc macro) variant, `new` compares the
kind before the shape, so an input whose shape and kind both differ from the
expected ones is reported as `KindMismatch`, not `ShapeMismatch`. -/
theorem C2_counterexample :
    Proc.new "T" ⟨true, [2, 3], Kind.Float⟩ ⟨[4], Kind.Int64⟩ =
      Except.error (.KindMismatch "T" Kind.Float Kind.Int64) ∧
    Proc.new "T" ⟨true, [2, 3], Kind.Float⟩ ⟨[4], Kind.Int64⟩ ≠
      Except.error (.ShapeMismatch "T" [2, 3] [4]) := by
  refine ⟨rfl, ?_⟩
  intro h
  rw [show Proc.new "T" ⟨true, [2, 3], Kind.Float⟩ ⟨[4], Kind.Int64⟩ =
      Except.error (.KindMismatch "T" Kind.Float Kind.Int64) from rfl] at h
  exact Proc.TensorTypeError.noConfusion (Except.error.inj h)

/-- C2 (amended): in the explicit-params variant every shape mismatch yields
`ShapeMismatch` (shape is compared before kind); in the global variant kind
is compared before shape, so `ShapeMismatch` is returned when the shape
differs and the kind matches, while any kind mismatch (including a
simultaneous shape-and-kind mismatch) yields `KindMismatch`. -/
theorem C2_amended_shape_kind_order :
    (∀ (P : Type) (tn : String) (fields : List (P → Int)) (k : Kind)
        (t : Tensor) (p : P),
        t.shape ≠ Lib.expected_size fields p →
        Lib.new tn fields k t p =
          Except.error (.ShapeMismatch tn (Lib.expected_size fields p) t.shape)) ∧
    (∀ (tn : String) (s : Proc.ModuleState) (t : Tensor),
        s.INIT = true → s.KIND = t.kind → t.shape ≠ s.DIMS →
        Proc.new tn s t =
          Except.error (.ShapeMismatch tn s.DIMS t.shape)) ∧
    (∀ (tn : String) (s : Proc.ModuleState) (t : Tensor),
        s.INIT = true → s.KIND ≠ t.kind →
        Proc.new tn s t =
          Except.error (.KindMismatch tn s.KIND t.kind)) := by
  refine ⟨?_, ?_, ?_⟩
  · intro P tn fields k t p h
    simp [Lib.new, h]
  · intro tn s t hinit hk h
    simp [Proc.new, hinit, hk, h]
  · intro tn s t hinit hk
    simp [Proc.new, hinit, hk]

/-- Witness for the amended C2 at concrete states and tensors, one per
conjunct. -/
theorem C2_witness :
    Lib.new "T" [fun _ => (2 : Int), fun _ => (3 : Int)] Kind.Float
      ⟨[4], Kind.Float⟩ () =
      Except.error (.ShapeMismatch "T" [2, 3] [4]) ∧
    Proc.new "T" ⟨true, [2, 3], Kind.Float⟩ ⟨[4], Kind.Float⟩ =
      Except.error (.ShapeMismatch "T" [2, 3] [4]) ∧
    Proc.new "T" ⟨true, [2, 3], Kind.Float⟩ ⟨[2, 3], Kind.Int64⟩ =
      Except.error (.KindMismatch "T" Kind.Float Kind.Int64) :=
  ⟨C2_amended_shape_kind_order.1 Unit "T" [fun _ => 2, fun _ => 3] Kind.Float
      ⟨[4], Kind.Float⟩ () (by decide),
    C2_amended_shape_kind_order.2.1 "T" ⟨true, [2, 3], Kind.Float⟩
      ⟨[4], Kind.Float⟩ rfl rfl (by decide),
    C2_amended_shape_kind_order.2.2 "T" ⟨true, [2, 3], Kind.Float⟩
      ⟨[2, 3], Kind.Int64⟩ rfl (by decide)⟩

/-- C3: in global mode the registry is write-once: the first `set` returns
`Ok` and stores the given values, the second returns `AlreadyInitialized`,
`get_dims` after both calls sees exactly the first values, and `set` on an
already-initialised registry leaves the whole state untouched. -/
theorem C3_write_once (N : Nat) (K : Kind) (tn : String) (v1 v2 : List Int) :
    (Proc.set tn v1 (Proc.declState N K)).1 = Except.ok () ∧
    (Proc.set tn v2 (Proc.set tn v1 (Proc.declState N K)).2).1 =
      Except.error (.AlreadyInitialized tn) ∧
    Proc.get_dims (Proc.set tn v2 (Proc.set tn v1 (Proc.declState N K)).2).2 =
      some v1 ∧
    (∀ (s : Proc.ModuleState) (vs : List Int),
        Proc.is_initialized s = true → (Proc.set tn vs s).2 = s) := by
  refine ⟨rfl, rfl, rfl, ?_⟩
  intro s vs h
  unfold Proc.is_initialized at h
  simp [Proc.set, h]

/-- Witness for C3 at a concrete already-initialised state. -/
theorem C3_witness :
    (Proc.set "T" [7] ⟨true, [2, 3], Kind.Float⟩).2 =
      (⟨true, [2, 3], Kind.Float⟩ : Proc.ModuleState) :=
  (C3_write_once 2 Kind.Float "T" [2, 3] [4, 5]).2.2.2
    ⟨true, [2, 3], Kind.Float⟩ [7] rfl

/-- C4: in global mode, `new` on a registry whose `Once` has not completed
returns `Uninitialized{type_name}` for every input tensor. -/
theorem C4_new_before_set_uninitialized (tn : String) (s : Proc.ModuleState)
    (t : Tensor) (h : Proc.is_initialized s = false) :
    Proc.new tn s t = Except.error (.Uninitialized tn) := by
  unfold Proc.is_initialized at h
  simp [Proc.new, h]

/-- Witness for C4 at the freshly declared state of arity 3. -/
theorem C4_witness :
    Proc.new "T" (Proc.declState 3 Kind.Float) ⟨[2, 3, 4], Kind.Float⟩ =
      Except.error (.Uninitialized "T") :=
  C4_new_before_set_uninitialized "T" (Proc.declState 3 Kind.Float)
    ⟨[2, 3, 4], Kind.Float⟩ rfl

/-- C5 counterexample: in the global variant, a transform whose result
changes both the shape and the kind makes `apply` return `KindMismatch`, not
the `ShapeMismatch` the claim requires for every shape-changing result. -/
theorem C5_counterexample :
    Proc.apply "T" ⟨true, [2, 3], Kind.Float⟩ ⟨⟨[2, 3], Kind.Float⟩⟩
      (fun _ => ⟨[7], Kind.Int64⟩) =
      Except.error (.KindMismatch "T" Kind.Float Kind.Int64) ∧
    Proc.apply "T" ⟨true, [2, 3], Kind.Float⟩ ⟨⟨[2, 3], Kind.Float⟩⟩
      (fun _ => ⟨[7], Kind.Int64⟩) ≠
      Except.error (.ShapeMismatch "T" [2, 3] [7]) := by
  refine ⟨rfl, ?_⟩
  intro h
  rw [show Proc.apply "T" ⟨true, [2, 3], Kind.Float⟩ ⟨⟨[2, 3], Kind.Float⟩⟩
      (fun _ => ⟨[7], Kind.Int64⟩) =
      Except.error (.KindMismatch "T" Kind.Float Kind.Int64) from rfl] at h
  exact Proc.TensorTypeError.noConfusion (Except.error.inj h)

/-- C5 (amended): `apply` re-runs the full `new` validation path on the
transform's result against the original type's expected shape and kind, in
both variants; a shape-changing transform yields
`ShapeMismatch{expected = original expected shape, found = result shape}`
unconditionally in the explicit-params variant, and in the global variant
provided the result's kind matches the declared kind (a simultaneous kind
mismatch yields `KindMismatch` instead, since kind is compared first
there). -/
theorem C5_amended_apply_revalidates :
    (∀ (tn : String) (s : Proc.ModuleState) (a : Proc.TensorType)
        (f : Tensor → Tensor),
        Proc.apply tn s a f = Proc.new tn s (f a.tensor)) ∧
    (∀ (P : Type) (tn : String) (fields : List (P → Int)) (k : Kind)
        (a : Lib.TensorType) (tfn : Tensor → Tensor) (p : P),
        Lib.apply_fn tn fields k a tfn p =
          Lib.new tn fields k (tfn a.tensor) p) ∧
    (∀ (P : Type) (tn : String) (fields : List (P → Int)) (k : Kind)
        (a : Lib.TensorType) (tfn : Tensor → Tensor) (p : P),
        (tfn a.tensor).shape ≠ Lib.expected_size fields p →
        Lib.apply_fn tn fields k a tfn p =
          Except.error
            (.ShapeMismatch tn (Lib.expected_size fields p)
              (tfn a.tensor).shape)) ∧
    (∀ (tn : String) (s : Proc.ModuleState) (a : Proc.TensorType)
        (f : Tensor → Tensor),
        s.INIT = true → s.KIND = (f a.tensor).kind →
        (f a.tensor).shape ≠ s.DIMS →
        Proc.apply tn s a f =
          Except.error (.ShapeMismatch tn s.DIMS (f a.tensor).shape)) := by
  refine ⟨fun tn s a f => rfl, fun P tn fields k a tfn p => rfl, ?_, ?_⟩
  · intro P tn fields k a tfn p h
    simp [Lib.apply_fn, Lib.new, h]
  · intro tn s a f hinit hk h
    simp [Proc.apply, Proc.new, hinit, hk, h]

/-- Witness for the amended C5: concrete shape-changing transforms, one per
fallible conjunct. -/
theorem C5_witness :
    Lib.apply_fn "T" [fun _ => (2 : Int), fun _ => (3 : Int)] Kind.Float
      ⟨⟨[2, 3], Kind.Float⟩⟩ (fun _ => ⟨[3, 2], Kind.Float⟩) () =
      Except.error (.ShapeMismatch "T" [2, 3] [3, 2]) ∧
    Proc.apply "T" ⟨true, [2, 3], Kind.Float⟩ ⟨⟨[2, 3], Kind.Float⟩⟩
      (fun _ => ⟨[3, 2], Kind.Float⟩) =
      Except.error (.ShapeMismatch "T" [2, 3] [3, 2]) :=
  ⟨C5_amended_apply_revalidates.2.2.1 Unit "T" [fun _ => 2, fun _ => 3]
      Kind.Float ⟨⟨[2, 3], Kind.Float⟩⟩ (fun _ => ⟨[3, 2], Kind.Float⟩) ()
      (by decide),
    C5_amended_apply_revalidates.2.2.2 "T" ⟨true, [2, 3], Kind.Float⟩
      ⟨⟨[2, 3], Kind.Float⟩⟩ (fun _ => ⟨[3, 2], Kind.Float⟩) rfl rfl
      (by decide)⟩

/-- C6 counterexample: in the global variant, `clone` performs no validation
at all — it returns a wrapper of the shallow clone even when the registry is
uninitialised, while `new` on that same shallow clone fails with
`Uninitialized`; hence the result of `clone` is not the result of the `new`
validation path. -/
theorem C6_counterexample :
    Proc.TensorType.clone ⟨⟨[2, 3], Kind.Float⟩⟩ =
      (⟨⟨[2, 3], Kind.Float⟩⟩ : Proc.TensorType) ∧
    Proc.new "T" (Proc.declState 2 Kind.Float)
      (Tensor.shallow_clone ⟨[2, 3], Kind.Float⟩) =
      Except.error (.Uninitialized "T") ∧
    Except.ok (Proc.TensorType.clone ⟨⟨[2, 3], Kind.Float⟩⟩) ≠
      Proc.new "T" (Proc.declState 2 Kind.Float)
        (Tensor.shallow_clone ⟨[2, 3], Kind.Float⟩) := by
  refine ⟨rfl, rfl, ?_⟩
  intro h
  rw [show Proc.new "T" (Proc.declState 2 Kind.Float)
      (Tensor.shallow_clone ⟨[2, 3], Kind.Float⟩) =
      Except.error (.Uninitialized "T") from rfl] at h
  exact Except.noConfusion h

/-- C6 (amended): only the explicit-params variant's `clone` re-runs the full
`new` validation path on the shallow clone of the owned array; the global
variant's `clone` returns the shallow-cloned wrapper directly, with no
validation and no fallible result. -/
theorem C6_amended_clone (P : Type) (tn : String) (fields : List (P → Int))
    (k : Kind) (a : Lib.TensorType) (p : P) (b : Proc.TensorType) :
    Lib.TensorType.clone tn fields k a p =
      Lib.new tn fields k a.tensor.shallow_clone p ∧
    Proc.TensorType.clone b = ⟨b.tensor.shallow_clone⟩ :=
  ⟨rfl, rfl⟩

/-- C7: every error any operation can return is one of the four kinds
`Uninitialized`, `AlreadyInitialized`, `ShapeMismatch`, `KindMismatch`,
always carrying the declaring wrapper type's name, the mismatch kinds
additionally carrying exactly the expected and found shape/kind that were
compared. -/
theorem C7_error_taxonomy :
    (∀ (tn : String) (vals : List Int) (s : Proc.ModuleState)
        (e : Proc.TensorTypeError),
        (Proc.set tn vals s).1 = Except.error e →
        e = .AlreadyInitialized tn) ∧
    (∀ (tn : String) (s : Proc.ModuleState) (t : Tensor)
        (e : Proc.TensorTypeError),
        Proc.new tn s t = Except.error e →
        e = .Uninitialized tn ∨ e = .KindMismatch tn s.KIND t.kind ∨
          e = .ShapeMismatch tn s.DIMS t.shape) ∧
    (∀ (tn : String) (s : Proc.ModuleState) (a : Proc.TensorType)
        (f : Tensor → Tensor) (e : Proc.TensorTypeError),
        Proc.apply tn s a f = Except.error e →
        e = .Uninitialized tn ∨ e = .KindMismatch tn s.KIND (f a.tensor).kind ∨
          e = .ShapeMismatch tn s.DIMS (f a.tensor).shape) ∧
    (∀ (P : Type) (tn : String) (fields : List (P → Int)) (k : Kind)
        (t : Tensor) (p : P) (e : Lib.TensorTypeError),
        Lib.new tn fields k t p = Except.error e →
        e = .ShapeMismatch tn (Lib.expected_size fields p) t.shape ∨
          e = .KindMismatch tn k t.kind) := by
  have hnew : ∀ (tn : String) (s : Proc.ModuleState) (t : Tensor)
      (e : Proc.TensorTypeError),
      Proc.new tn s t = Except.error e →
      e = .Uninitialized tn ∨ e = .KindMismatch tn s.KIND t.kind ∨
        e = .ShapeMismatch tn s.DIMS t.shape := by
    intro tn s t e h
    unfold Proc.new at h
    split at h
    · exact Or.inl (Except.error.inj h).symm
    · split at h
      · exact Or.inr (Or.inl (Except.error.inj h).symm)
      · split at h
        · exact Or.inr (Or.inr (Except.error.inj h).symm)
        · exact Except.noConfusion h
  refine ⟨?_, hnew, ?_, ?_⟩
  · intro tn vals s e h
    unfold Proc.set at h
    split at h
    · exact (Except.error.inj h).symm
    · exact Except.noConfusion h
  · intro tn s a f e h
    exact hnew tn s (f a.tensor) e h
  · intro P tn fields k t p e h
    unfold Lib.new at h
    split at h
    · exact Or.inl (Except.error.inj h).symm
    · split at h
      · exact Or.inr (Except.error.inj h).symm
      · exact Except.noConfusion h

/-- Witness for C7: the concrete `Uninitialized` error produced by `new` on a
freshly declared registry is in the taxonomy and carries the type name. -/
theorem C7_witness :
    (Proc.TensorTypeError.Uninitialized "T" :
        Proc.TensorTypeError) = .Uninitialized "T" ∨
    (Proc.TensorTypeError.Uninitialized "T" :
        Proc.TensorTypeError) = .KindMismatch "T" Kind.Float Kind.Float ∨
    (Proc.TensorTypeError.Uninitialized "T" :
        Proc.TensorTypeError) =
      .ShapeMismatch "T" (List.replicate 1 (0 : Int)) [5] :=
  C7_error_taxonomy.2.1 "T" (Proc.declState 1 Kind.Float)
    ⟨[5], Kind.Float⟩ (.Uninitialized "T") rfl

/-- C8: evidence for the race in `set`. Under the interleaving in which both
threads execute the `INIT.is_completed()` guard before either reaches
`INIT.call_once`, both `set` calls return `Ok(())` while only the first
thread's values are stored — the second caller's values are silently
discarded, although the claim (and the spec's single-winner requirement)
says every losing call must return `AlreadyInitialized`. The last conjunct
checks the model: when the threads run sequentially, the second does observe
`AlreadyInitialized`. -/
theorem C8_race_two_oks :
    (Proc.runSchedule "T"
        ⟨Proc.declState 2 Kind.Float, ⟨.checkInit, [2, 3], none⟩,
          ⟨.checkInit, [4, 5], none⟩⟩
        [.one, .two, .one, .two]).t1.result = some (Except.ok ()) ∧
    (Proc.runSchedule "T"
        ⟨Proc.declState 2 Kind.Float, ⟨.checkInit, [2, 3], none⟩,
          ⟨.checkInit, [4, 5], none⟩⟩
        [.one, .two, .one, .two]).t2.result = some (Except.ok ()) ∧
    (Proc.runSchedule "T"
        ⟨Proc.declState 2 Kind.Float, ⟨.checkInit, [2, 3], none⟩,
          ⟨.checkInit, [4, 5], none⟩⟩
        [.one, .two, .one, .two]).shared.DIMS = [2, 3] ∧
    (Proc.runSchedule "T"
        ⟨Proc.declState 2 Kind.Float, ⟨.checkInit, [2, 3], none⟩,
          ⟨.checkInit, [4, 5], none⟩⟩
        [.one, .two, .one, .two]).shared.INIT = true ∧
    (Proc.runSchedule "T"
        ⟨Proc.declState 2 Kind.Float, ⟨.checkInit, [2, 3], none⟩,
          ⟨.checkInit, [4, 5], none⟩⟩
        [.one, .one, .two, .two]).t2.result =
      some (Except.error (.AlreadyInitialized "T")) ∧
    (Proc.runSchedule "T"
        ⟨Proc.declState 2 Kind.Float, ⟨.checkInit, [2, 3], none⟩,
          ⟨.checkInit, [4, 5], none⟩⟩
        [.one, .one, .two, .two]).t1.result =
      some (Proc.set "T" [2, 3] (Proc.declState 2 Kind.Float)).1 :=
  ⟨rfl, rfl, rfl, rfl, rfl, rfl⟩

/-- C9: for a type declared by `parameter_type!(P, i64)`, the conversions are
total and round-trip losslessly: `i64::from(P::from(v)) == v` and
dereferencing `P(v)` yields `v`. -/
theorem C9_parameter_roundtrip (v : Int) :
    ParameterValue.into_i64 (ParameterValue.from_i64 v) = v ∧
    ParameterValue.deref (ParameterValue.from_i64 v) = v :=
  ⟨rfl, rfl⟩

/-- C10: in global mode `get_kind()` returns `none` before any successful
`set`, even though the declared kind is already stored in the `KIND` static
at declaration time; after a successful `set` it returns `some` of the
declared kind, and no `set` call ever changes the stored kind. -/
theorem C10_get_kind_behavior (N : Nat) (K : Kind) (tn : String)
    (vals : List Int) :
    Proc.get_kind (Proc.declState N K) = none ∧
    (Proc.declState N K).KIND = K ∧
    (Proc.set tn vals (Proc.declState N K)).1 = Except.ok () ∧
    Proc.get_kind (Proc.set tn vals (Proc.declState N K)).2 = some K ∧
    (∀ (s : Proc.ModuleState) (vs : List Int),
        ((Proc.set tn vs s).2).KIND = s.KIND) := by
  refine ⟨rfl, rfl, rfl, rfl, ?_⟩
  intro s vs
  unfold Proc.set
  split <;> rfl

end TensorTypes
